import Mathlib

/-!
# Helios game native bridge

A shallow embedding of `helios_game.h`, `helios_game.c` and `helios_win32.c`.

The C code talks to two external systems: the Java VM, through the function
table `JNIEnv`, and the Windows kernel, through `OpenProcess`.  Each native
function takes the answers of those systems as an argument (`JNIEnv`, `Win32`);
within one call every lookup is issued once, with arguments that differ from
those of every other lookup of the call, so a table of answers per call loses
no behaviour.  From one call to the next the tables may differ.

What the program owns is explicit state (`World`): the function-local static
`initialized`, the two global tables `JDirectMemoryBinding` and
`JRemoteProcess`, the fields of the Java objects it is handed, and the
sequence of JNI and kernel calls issued so far.
-/

namespace Helios

/-! ## Types of `jni.h` and `windows.h` -/

/-- References and identifiers handed out by the VM; `0` is `NULL`. -/
abbrev jobject := Nat
abbrev jclass := Nat
abbrev jfieldID := Nat
abbrev jmethodID := Nat
/-- Signed 64-bit Java `long`. -/
abbrev jlong := Int
/-- Unsigned 32-bit `DWORD`. -/
abbrev DWORD := Nat
/-- The C `int` behind `BOOL`. -/
abbrev BOOL := Nat
/-- Pointer-sized kernel handle (64-bit target); `0` is the null handle. -/
abbrev HANDLE := Nat

/-- The null reference, identifier and handle. -/
def NULL : Nat := 0

/-- The value of `TRUE` in `windows.h`. -/
def TRUE : BOOL := 1

/-- Modelled from the spec: `windows.h` is not part of the sources, so the
access masks below are not defined in the repository.  The spec asks for "full
access rights", "sufficient for memory read and write (and query of basic
process info)"; the values are those of the Windows SDK header `winnt.h`. -/
def STANDARD_RIGHTS_REQUIRED : DWORD := 0x000F0000

/-- Modelled from the spec: `winnt.h` value, see `STANDARD_RIGHTS_REQUIRED`. -/
def SYNCHRONIZE : DWORD := 0x00100000

/-- Modelled from the spec: right to read the memory of the process. -/
def PROCESS_VM_READ : DWORD := 0x0010

/-- Modelled from the spec: right to write the memory of the process. -/
def PROCESS_VM_WRITE : DWORD := 0x0020

/-- Modelled from the spec: right to query basic process information. -/
def PROCESS_QUERY_INFORMATION : DWORD := 0x0400

/-- Modelled from the spec: "full access rights" of a process object,
`STANDARD_RIGHTS_REQUIRED | SYNCHRONIZE | 0xFFFF` in `winnt.h`. -/
def PROCESS_ALL_ACCESS : DWORD := STANDARD_RIGHTS_REQUIRED ||| SYNCHRONIZE ||| 0xFFFF

/-- The cast `(DWORD) pid` of a `jlong`: the low 32 bits. -/
def DWORD_of_jlong (pid : jlong) : DWORD := (pid % 2 ^ 32).toNat

/-- The cast `(jlong) process_handle` of a 64-bit pointer: the same 64 bits
read as a signed integer. -/
def jlong_of_HANDLE (h : HANDLE) : jlong :=
  if h % 2 ^ 64 < 2 ^ 63 then ((h % 2 ^ 64 : Nat) : Int) else ((h % 2 ^ 64 : Nat) : Int) - 2 ^ 64

/-! ## `helios_game.h` -/

structure _direct_memory_binding_class where
  clazz : jclass
  is_valid : jfieldID
  deriving DecidableEq, Repr

structure _remote_game_process_class where
  clazz : jclass
  java_lang_ProcessHandle : jclass
  java_lang_ProcessHandle_pid : jmethodID
  process : jfieldID
  direct_accessor : jfieldID
  process_handle : jfieldID
  deriving DecidableEq, Repr

/-! ## The outside world -/

/-- The entries of the JNI function table whose result the VM decides. -/
structure JNIEnv where
  FindClass : String → jclass
  GetFieldID : jclass → String → String → jfieldID
  GetMethodID : jclass → String → String → jmethodID
  CallLongMethod : jobject → jmethodID → jlong

/-- The kernel entry point used by the Windows module. -/
structure Win32 where
  OpenProcess : DWORD → BOOL → DWORD → HANDLE

/-- Content of one field of a Java object. -/
inductive jvalue where
  | l (ref : jobject)
  | j (value : jlong)
  deriving DecidableEq, Repr

/-- Fields of the Java objects, by object reference and field identifier. -/
abbrev Heap := jobject → jfieldID → jvalue

/-- One call across the JNI or kernel boundary, with its arguments.  `Throw`
and `ThrowNew` are the JNI entries by which a native method raises a Java
exception in its caller. -/
inductive Event where
  | FatalError (msg : String)
  | FindClass (name : String)
  | GetFieldID (clazz : jclass) (name sig : String)
  | GetMethodID (clazz : jclass) (name sig : String)
  | GetObjectField (obj : jobject) (fieldID : jfieldID)
  | CallLongMethod (obj : jobject) (methodID : jmethodID)
  | SetLongField (obj : jobject) (fieldID : jfieldID) (value : jlong)
  | OpenProcess (dwDesiredAccess : DWORD) (bInheritHandle : BOOL) (dwProcessId : DWORD)
  | Throw (obj : jobject)
  | ThrowNew (clazz : jclass) (msg : String)
  deriving DecidableEq, Repr

/-- State owned by the native library, the Java heap it writes to, and the
calls issued so far (oldest first). -/
structure World where
  initialized : Bool
  JDirectMemoryBinding : _direct_memory_binding_class
  JRemoteProcess : _remote_game_process_class
  heap : Heap
  trace : List Event

/-- Outcome of a native function: it returns to its caller, or the VM is
aborted inside `FatalError`, which does not return. -/
inductive Result where
  | returned (w : World)
  | fatal (w : World)

/-- State at program start: statics hold their C initial values. -/
def World.initial (heap : Heap) : World :=
  { initialized := false
    JDirectMemoryBinding := ⟨NULL, NULL⟩
    JRemoteProcess := ⟨NULL, NULL, NULL, NULL, NULL, NULL⟩
    heap := heap
    trace := [] }

/-- Record a call. -/
def World.call (w : World) (e : Event) : World :=
  { w with trace := w.trace ++ [e] }

/-- JNI `GetObjectField`: the reference stored in the field (`NULL` when the
field does not hold a reference). -/
def GetObjectField (heap : Heap) (obj : jobject) (fieldID : jfieldID) : jobject :=
  match heap obj fieldID with
  | .l ref => ref
  | .j _ => NULL

/-- JNI `SetLongField`: store a `long` in one field of one object. -/
def SetLongField (heap : Heap) (obj : jobject) (fieldID : jfieldID) (value : jlong) : Heap :=
  fun o f => if o = obj ∧ f = fieldID then .j value else heap o f

/-! ## `helios_game.c` -/

def helios_init (env : JNIEnv) (w : World) : Result :=
  if w.initialized then
    .fatal (w.call (.FatalError "multiple initialization of Helios game native library"))
  else
    let r : jclass := env.FindClass "io/github/dotstart/helios/game/DirectMemoryBinding"
    let w : World := w.call (.FindClass "io/github/dotstart/helios/game/DirectMemoryBinding")
    let w : World := { w with JDirectMemoryBinding.clazz := r }
    let r : jfieldID := env.GetFieldID w.JDirectMemoryBinding.clazz "isValid" "Z"
    let w : World := w.call (.GetFieldID w.JDirectMemoryBinding.clazz "isValid" "Z")
    let w : World := { w with JDirectMemoryBinding.is_valid := r }
    let r : jclass := env.FindClass "io/github/dotstart/helios/game/RemoteGameProcess"
    let w : World := w.call (.FindClass "io/github/dotstart/helios/game/RemoteGameProcess")
    let w : World := { w with JRemoteProcess.clazz := r }
    let r : jclass := env.FindClass "java/lang/ProcessHandle"
    let w : World := w.call (.FindClass "java/lang/ProcessHandle")
    let w : World := { w with JRemoteProcess.java_lang_ProcessHandle := r }
    let r : jmethodID := env.GetMethodID w.JRemoteProcess.java_lang_ProcessHandle "pid" "()J"
    let w : World := w.call (.GetMethodID w.JRemoteProcess.java_lang_ProcessHandle "pid" "()J")
    let w : World := { w with JRemoteProcess.java_lang_ProcessHandle_pid := r }
    let r : jfieldID := env.GetFieldID w.JRemoteProcess.clazz "directAccessor"
      "Lio/github/dotstart/helios/game/RemoteGameProcess/DirectMemoryAccessor;"
    let w : World := w.call (.GetFieldID w.JRemoteProcess.clazz "directAccessor"
      "Lio/github/dotstart/helios/game/RemoteGameProcess/DirectMemoryAccessor;")
    let w : World := { w with JRemoteProcess.direct_accessor := r }
    let r : jfieldID := env.GetFieldID w.JRemoteProcess.clazz "process" "J"
    let w : World := w.call (.GetFieldID w.JRemoteProcess.clazz "process" "J")
    let w : World := { w with JRemoteProcess.process := r }
    let r : jfieldID := env.GetFieldID w.JRemoteProcess.clazz "handle" "Ljava/lang/ProcessHandle;"
    let w : World := w.call (.GetFieldID w.JRemoteProcess.clazz "handle" "Ljava/lang/ProcessHandle;")
    let w : World := { w with JRemoteProcess.process_handle := r }
    .returned w

/-! ## `helios_win32.c` -/

def Java_io_github_dotstart_helios_game_RemoteGameProcess_attach
    (env : JNIEnv) (os : Win32) (this : jobject) (w : World) : Result :=
  let j_process_handle : jobject := GetObjectField w.heap this w.JRemoteProcess.process_handle
  let w : World := w.call (.GetObjectField this w.JRemoteProcess.process_handle)
  let pid : jlong := env.CallLongMethod j_process_handle w.JRemoteProcess.java_lang_ProcessHandle_pid
  let w : World := w.call (.CallLongMethod j_process_handle w.JRemoteProcess.java_lang_ProcessHandle_pid)
  let process_handle : HANDLE := os.OpenProcess PROCESS_ALL_ACCESS TRUE (DWORD_of_jlong pid)
  let w : World := w.call (.OpenProcess PROCESS_ALL_ACCESS TRUE (DWORD_of_jlong pid))
  let v : jlong := jlong_of_HANDLE process_handle
  let w : World := w.call (.SetLongField this w.JRemoteProcess.process v)
  let w : World := { w with heap := SetLongField w.heap this w.JRemoteProcess.process v }
  .returned w

/-! ## Callers and observations -/

/-- State in which a call ended. -/
def Result.world : Result → World
  | .returned w => w
  | .fatal w => w

/-- Did the call return to its caller? -/
def Result.isReturned : Result → Bool
  | .returned _ => true
  | .fatal _ => false

/-- Sequencing in the calling program: nothing runs after the VM was aborted. -/
def Result.andThen (r : Result) (f : World → Result) : Result :=
  match r with
  | .returned w => f w
  | .fatal w => .fatal w

/-- A caller that invokes `helios_init` once per element of `envs`, in order. -/
def helios_init_each : List JNIEnv → World → Result
  | [], w => .returned w
  | env :: envs, w => (helios_init env w).andThen (helios_init_each envs)

/-- A caller that invokes `helios_init` `n` times on the same `env`. -/
def helios_init_times (env : JNIEnv) (n : Nat) (w : World) : Result :=
  helios_init_each (List.replicate n env) w

/-- States the library can be in: program start, then any sequence of calls of
the two native functions that returned, and of writes to the Java heap by the
rest of the program. -/
inductive Reachable : World → Prop where
  | start (heap : Heap) : Reachable (World.initial heap)
  | init (env : JNIEnv) (w w1 : World) :
      Reachable w → helios_init env w = .returned w1 → Reachable w1
  | attach (env : JNIEnv) (os : Win32) (this : jobject) (w w1 : World) :
      Reachable w →
      Java_io_github_dotstart_helios_game_RemoteGameProcess_attach env os this w = .returned w1 →
      Reachable w1
  | java (heap : Heap) (w : World) : Reachable w → Reachable { w with heap := heap }

/-- Calls issued between two states of one run. -/
def callsSince (before after : World) : List Event :=
  after.trace.drop before.trace.length

def Event.isFatalError : Event → Bool
  | .FatalError _ => true
  | _ => false

/-- Does the call raise a Java exception in the caller? -/
def Event.isThrow : Event → Bool
  | .Throw _ => true
  | .ThrowNew _ _ => true
  | _ => false

/-- Is the call a `FindClass`, `GetFieldID` or `GetMethodID` lookup? -/
def Event.isLookup : Event → Bool
  | .FindClass _ => true
  | .GetFieldID _ _ _ => true
  | .GetMethodID _ _ _ => true
  | _ => false

/-- The arguments of the `OpenProcess` calls among `calls`, in order. -/
def openProcessCalls (calls : List Event) : List (DWORD × BOOL × DWORD) :=
  calls.filterMap fun e =>
    match e with
    | .OpenProcess access inherit pid => some (access, inherit, pid)
    | _ => none

/-- An error reaches the caller of a `void` native method as a Java exception
or as the abort of the VM. -/
def signalsError (calls : List Event) : Bool :=
  calls.any fun e => e.isFatalError || e.isThrow

/-- The pid reported by the `ProcessHandle` in the `handle` field of `this`,
as `attach` reads it. -/
def pidOf (env : JNIEnv) (w : World) (this : jobject) : jlong :=
  env.CallLongMethod (GetObjectField w.heap this w.JRemoteProcess.process_handle)
    w.JRemoteProcess.java_lang_ProcessHandle_pid

/-- The eight lookups of one run of `helios_init`, in program order, each
field and method looked up on the class the run has just resolved. -/
def lookupCalls (env : JNIEnv) : List Event :=
  [ .FindClass "io/github/dotstart/helios/game/DirectMemoryBinding",
    .GetFieldID (env.FindClass "io/github/dotstart/helios/game/DirectMemoryBinding") "isValid" "Z",
    .FindClass "io/github/dotstart/helios/game/RemoteGameProcess",
    .FindClass "java/lang/ProcessHandle",
    .GetMethodID (env.FindClass "java/lang/ProcessHandle") "pid" "()J",
    .GetFieldID (env.FindClass "io/github/dotstart/helios/game/RemoteGameProcess") "directAccessor"
      "Lio/github/dotstart/helios/game/RemoteGameProcess/DirectMemoryAccessor;",
    .GetFieldID (env.FindClass "io/github/dotstart/helios/game/RemoteGameProcess") "process" "J",
    .GetFieldID (env.FindClass "io/github/dotstart/helios/game/RemoteGameProcess") "handle"
      "Ljava/lang/ProcessHandle;" ]

/-- The four calls of one run of `attach`, in program order. -/
def attachCalls (env : JNIEnv) (os : Win32) (this : jobject) (w : World) : List Event :=
  [ .GetObjectField this w.JRemoteProcess.process_handle,
    .CallLongMethod (GetObjectField w.heap this w.JRemoteProcess.process_handle)
      w.JRemoteProcess.java_lang_ProcessHandle_pid,
    .OpenProcess PROCESS_ALL_ACCESS TRUE (DWORD_of_jlong (pidOf env w this)),
    .SetLongField this w.JRemoteProcess.process
      (jlong_of_HANDLE (os.OpenProcess PROCESS_ALL_ACCESS TRUE (DWORD_of_jlong (pidOf env w this)))) ]

/-! ## A concrete VM, heap and kernel -/

/-- A VM in which every lookup succeeds: classes 1 to 3, fields 11 and 21 to
23, method 31; the `ProcessHandle` object 100 reports pid 4242. -/
def exampleEnv : JNIEnv where
  FindClass name :=
    if name = "io/github/dotstart/helios/game/DirectMemoryBinding" then 1
    else if name = "io/github/dotstart/helios/game/RemoteGameProcess" then 2
    else if name = "java/lang/ProcessHandle" then 3
    else NULL
  GetFieldID clazz name _ :=
    if clazz = 1 ∧ name = "isValid" then 11
    else if clazz = 2 ∧ name = "process" then 21
    else if clazz = 2 ∧ name = "directAccessor" then 22
    else if clazz = 2 ∧ name = "handle" then 23
    else NULL
  GetMethodID clazz name _ := if clazz = 3 ∧ name = "pid" then 31 else NULL
  CallLongMethod obj methodID := if obj = 100 ∧ methodID = 31 then 4242 else 0

/-- A VM in which every lookup fails and every method returns 0. -/
def nullEnv : JNIEnv where
  FindClass _ := NULL
  GetFieldID _ _ _ := NULL
  GetMethodID _ _ _ := NULL
  CallLongMethod _ _ := 0

/-- The VM of `exampleEnv`, except that the `ProcessHandle` object 100 reports
pid `4242 + 2 ^ 32`. -/
def exampleEnvHigh : JNIEnv :=
  { exampleEnv with
    CallLongMethod := fun obj methodID => if obj = 100 ∧ methodID = 31 then 4242 + 2 ^ 32 else 0 }

/-- A heap with two `RemoteGameProcess` objects, 7 and 8, whose `handle`
fields both refer to object 100; `process` is 0 in object 7 and 99 in
object 8; every other field is null. -/
def exampleHeap : Heap := fun o f =>
  if o = 7 ∧ f = 23 then .l 100
  else if o = 7 ∧ f = 21 then .j 0
  else if o = 8 ∧ f = 23 then .l 100
  else if o = 8 ∧ f = 21 then .j 99
  else .l NULL

/-- A kernel in which process 4242 runs and opening it yields handle `0x1A4`. -/
def kernelA : Win32 where
  OpenProcess _ _ pid := if pid = 4242 then 0x1A4 else NULL

/-- The same kernel one open handle later: the next handle is `0x1A8`. -/
def kernelB : Win32 where
  OpenProcess _ _ pid := if pid = 4242 then 0x1A8 else NULL

/-- A kernel in which no process can be opened. -/
def kernelNone : Win32 where
  OpenProcess _ _ _ := NULL

/-- State after one `helios_init exampleEnv` from program start. -/
def exampleInit : World := (helios_init exampleEnv (World.initial exampleHeap)).world

/-- Outcome of a second `helios_init exampleEnv`. -/
def exampleInitAgain : Result := helios_init exampleEnv exampleInit

/-- State after object 7 was attached once, against `kernelA`. -/
def exampleAttached : World :=
  (Java_io_github_dotstart_helios_game_RemoteGameProcess_attach exampleEnv kernelA 7 exampleInit).world

/-- State after object 7 was attached a second time, against `kernelB`. -/
def exampleAttachedAgain : World :=
  (Java_io_github_dotstart_helios_game_RemoteGameProcess_attach exampleEnv kernelB 7 exampleAttached).world

/-- Outcome of attaching object 7 when the kernel opens no process. -/
def exampleFailedOpen : Result :=
  Java_io_github_dotstart_helios_game_RemoteGameProcess_attach exampleEnv kernelNone 7 exampleInit

/-! ## Basic facts -/

theorem callsSince_append (w w1 : World) (l : List Event) (h : w1.trace = w.trace ++ l) :
    callsSince w w1 = l := by
  simp [callsSince, h]

/-- With the flag clear, `helios_init` runs to its end; this is the state it
returns. -/
theorem helios_init_eq (env : JNIEnv) (w : World) (h : w.initialized = false) :
    helios_init env w = .returned
      { initialized := false
        JDirectMemoryBinding :=
          { clazz := env.FindClass "io/github/dotstart/helios/game/DirectMemoryBinding"
            is_valid := env.GetFieldID
              (env.FindClass "io/github/dotstart/helios/game/DirectMemoryBinding") "isValid" "Z" }
        JRemoteProcess :=
          { clazz := env.FindClass "io/github/dotstart/helios/game/RemoteGameProcess"
            java_lang_ProcessHandle := env.FindClass "java/lang/ProcessHandle"
            java_lang_ProcessHandle_pid :=
              env.GetMethodID (env.FindClass "java/lang/ProcessHandle") "pid" "()J"
            process := env.GetFieldID
              (env.FindClass "io/github/dotstart/helios/game/RemoteGameProcess") "process" "J"
            direct_accessor := env.GetFieldID
              (env.FindClass "io/github/dotstart/helios/game/RemoteGameProcess") "directAccessor"
              "Lio/github/dotstart/helios/game/RemoteGameProcess/DirectMemoryAccessor;"
            process_handle := env.GetFieldID
              (env.FindClass "io/github/dotstart/helios/game/RemoteGameProcess") "handle"
              "Ljava/lang/ProcessHandle;" }
        heap := w.heap
        trace := w.trace ++ lookupCalls env } := by
  simp [helios_init, h, World.call, lookupCalls]

/-- With the flag set, `helios_init` stops inside `FatalError`, its only call. -/
theorem helios_init_guard (env : JNIEnv) (w : World) (h : w.initialized = true) :
    helios_init env w =
      .fatal (w.call (.FatalError "multiple initialization of Helios game native library")) := by
  simp [helios_init, h]

/-- The state in which `helios_init` ends has the flag it started with. -/
theorem helios_init_flag (env : JNIEnv) (w : World) :
    (helios_init env w).world.initialized = w.initialized := by
  cases h : w.initialized
  · rw [helios_init_eq env w h]; rfl
  · rw [helios_init_guard env w h]; exact h

/-- The native method `attach` always runs to its end; this is the state it returns. -/
theorem attach_eq (env : JNIEnv) (os : Win32) (this : jobject) (w : World) :
    Java_io_github_dotstart_helios_game_RemoteGameProcess_attach env os this w = .returned
      { w with
        heap := SetLongField w.heap this w.JRemoteProcess.process
          (jlong_of_HANDLE (os.OpenProcess PROCESS_ALL_ACCESS TRUE (DWORD_of_jlong (pidOf env w this))))
        trace := w.trace ++ attachCalls env os this w } := by
  simp [Java_io_github_dotstart_helios_game_RemoteGameProcess_attach, World.call, attachCalls, pidOf]

/-- What `attach` returns, member by member. -/
theorem attach_spec (env : JNIEnv) (os : Win32) (this : jobject) (w : World) :
    ∃ w1,
      Java_io_github_dotstart_helios_game_RemoteGameProcess_attach env os this w = .returned w1 ∧
      w1.initialized = w.initialized ∧
      w1.JDirectMemoryBinding = w.JDirectMemoryBinding ∧
      w1.JRemoteProcess = w.JRemoteProcess ∧
      w1.heap = SetLongField w.heap this w.JRemoteProcess.process (jlong_of_HANDLE
        (os.OpenProcess PROCESS_ALL_ACCESS TRUE (DWORD_of_jlong (pidOf env w this)))) ∧
      w1.trace = w.trace ++ attachCalls env os this w :=
  ⟨_, attach_eq env os this w, rfl, rfl, rfl, rfl, rfl⟩

theorem SetLongField_same (heap : Heap) (obj : jobject) (fieldID : jfieldID) (value : jlong) :
    SetLongField heap obj fieldID value obj fieldID = .j value := by
  simp [SetLongField]

theorem SetLongField_other (heap : Heap) (obj o : jobject) (fieldID f : jfieldID) (value : jlong)
    (h : ¬ (o = obj ∧ f = fieldID)) :
    SetLongField heap obj fieldID value o f = heap o f := by
  simp [SetLongField, h]

theorem reachable_flag (w : World) (hw : Reachable w) : w.initialized = false := by
  induction hw with
  | start heap => rfl
  | init env w w1 _ hstep ih =>
      have := helios_init_flag env w
      rw [hstep] at this
      exact this.trans ih
  | attach env os this w w1 _ hstep ih =>
      rw [attach_eq] at hstep
      cases hstep
      exact ih
  | java heap w _ ih => exact ih

/-- One more call with the flag clear: the caller goes on from the state of
`helios_init_eq`. -/
theorem helios_init_each_cons (env : JNIEnv) (envs : List JNIEnv) (w : World)
    (h : w.initialized = false) :
    ∃ w1, helios_init env w = .returned w1 ∧ w1.initialized = false ∧
      helios_init_each (env :: envs) w = helios_init_each envs w1 := by
  refine ⟨_, helios_init_eq env w h, rfl, ?_⟩
  rw [helios_init_each, helios_init_eq env w h]
  rfl

theorem helios_init_each_flag (envs : List JNIEnv) :
    ∀ w : World, w.initialized = false →
      ∃ w1, helios_init_each envs w = .returned w1 ∧ w1.initialized = false := by
  induction envs with
  | nil => intro w h; exact ⟨w, rfl, h⟩
  | cons env envs ih =>
      intro w h
      obtain ⟨w1, _, h1, e⟩ := helios_init_each_cons env envs w h
      rw [e]
      exact ih w1 h1

/-- After one or more calls on the same `env`, the tables are those of one call. -/
theorem helios_init_times_tables (env : JNIEnv) (n : Nat) :
    ∀ w : World, w.initialized = false →
      ∃ w1 wn, helios_init env w = .returned w1 ∧
        helios_init_times env (n + 1) w = .returned wn ∧
        wn.JDirectMemoryBinding = w1.JDirectMemoryBinding ∧
        wn.JRemoteProcess = w1.JRemoteProcess := by
  induction n with
  | zero =>
      intro w h
      refine ⟨_, _, helios_init_eq env w h, ?_, rfl, rfl⟩
      simp only [helios_init_times, List.replicate, helios_init_each]
      rw [helios_init_eq env w h]
      rfl
  | succ n ih =>
      intro w h
      obtain ⟨w1, e1, h1, e⟩ := helios_init_each_cons env (List.replicate (n + 1) env) w h
      obtain ⟨w2, wn, e2, en, t1, t2⟩ := ih w1 h1
      refine ⟨w1, wn, e1, ?_, ?_, ?_⟩
      · show helios_init_each (env :: List.replicate (n + 1) env) w = _
        rw [e]
        exact en
      · rw [t1]
        rw [helios_init_eq env w h] at e1
        rw [helios_init_eq env w1 h1] at e2
        cases e1
        cases e2
        rfl
      · rw [t2]
        rw [helios_init_eq env w h] at e1
        rw [helios_init_eq env w1 h1] at e2
        cases e1
        cases e2
        rfl

/-! ## `helios_init` -/

/-- C1: the second call of `helios_init` in one process is not fatal.  After a
first call on `exampleEnv` from program start the flag is still clear, and the
second call returns to its caller: no `FatalError` is among the sixteen calls
of the two runs, all of which are lookups. -/
theorem helios_init_second_call_returns :
    (helios_init exampleEnv (World.initial exampleHeap)).isReturned = true ∧
    exampleInit.initialized = false ∧
    exampleInitAgain.isReturned = true ∧
    exampleInitAgain.world.trace.any Event.isFatalError = false ∧
    (exampleInitAgain.world.trace.filter Event.isLookup).length = 16 ∧
    exampleInitAgain.world.trace = lookupCalls exampleEnv ++ lookupCalls exampleEnv := by
  decide

/-- C5: a call of `helios_init` with the flag clear returns, and in the state
it returns each of the eight members of the two tables holds the answer of
its lookup in `env`, whatever the member held before; fields and methods are
looked up on the class stored by the same call, and the calls issued are the
eight lookups. -/
theorem helios_init_registers_all (env : JNIEnv) (w : World) (h : w.initialized = false) :
    ∃ w1, helios_init env w = .returned w1 ∧
      w1.JDirectMemoryBinding.clazz =
        env.FindClass "io/github/dotstart/helios/game/DirectMemoryBinding" ∧
      w1.JDirectMemoryBinding.is_valid =
        env.GetFieldID w1.JDirectMemoryBinding.clazz "isValid" "Z" ∧
      w1.JRemoteProcess.clazz =
        env.FindClass "io/github/dotstart/helios/game/RemoteGameProcess" ∧
      w1.JRemoteProcess.java_lang_ProcessHandle = env.FindClass "java/lang/ProcessHandle" ∧
      w1.JRemoteProcess.java_lang_ProcessHandle_pid =
        env.GetMethodID w1.JRemoteProcess.java_lang_ProcessHandle "pid" "()J" ∧
      w1.JRemoteProcess.process = env.GetFieldID w1.JRemoteProcess.clazz "process" "J" ∧
      w1.JRemoteProcess.process_handle =
        env.GetFieldID w1.JRemoteProcess.clazz "handle" "Ljava/lang/ProcessHandle;" ∧
      w1.JRemoteProcess.direct_accessor =
        env.GetFieldID w1.JRemoteProcess.clazz "directAccessor"
          "Lio/github/dotstart/helios/game/RemoteGameProcess/DirectMemoryAccessor;" ∧
      callsSince w w1 = lookupCalls env :=
  ⟨_, helios_init_eq env w h, rfl, rfl, rfl, rfl, rfl, rfl, rfl, rfl,
    callsSince_append _ _ _ rfl⟩

theorem helios_init_registers_all_witness :
    (World.initial exampleHeap).initialized = false ∧
    ∃ w1, helios_init exampleEnv (World.initial exampleHeap) = .returned w1 ∧
      w1.JDirectMemoryBinding.clazz =
        exampleEnv.FindClass "io/github/dotstart/helios/game/DirectMemoryBinding" ∧
      w1.JDirectMemoryBinding.is_valid =
        exampleEnv.GetFieldID w1.JDirectMemoryBinding.clazz "isValid" "Z" ∧
      w1.JRemoteProcess.clazz =
        exampleEnv.FindClass "io/github/dotstart/helios/game/RemoteGameProcess" ∧
      w1.JRemoteProcess.java_lang_ProcessHandle = exampleEnv.FindClass "java/lang/ProcessHandle" ∧
      w1.JRemoteProcess.java_lang_ProcessHandle_pid =
        exampleEnv.GetMethodID w1.JRemoteProcess.java_lang_ProcessHandle "pid" "()J" ∧
      w1.JRemoteProcess.process = exampleEnv.GetFieldID w1.JRemoteProcess.clazz "process" "J" ∧
      w1.JRemoteProcess.process_handle =
        exampleEnv.GetFieldID w1.JRemoteProcess.clazz "handle" "Ljava/lang/ProcessHandle;" ∧
      w1.JRemoteProcess.direct_accessor =
        exampleEnv.GetFieldID w1.JRemoteProcess.clazz "directAccessor"
          "Lio/github/dotstart/helios/game/RemoteGameProcess/DirectMemoryAccessor;" ∧
      callsSince (World.initial exampleHeap) w1 = lookupCalls exampleEnv :=
  ⟨rfl, helios_init_registers_all exampleEnv (World.initial exampleHeap) rfl⟩

/-- C8: `helios_init` ends with the flag it started with; hence the flag is
clear in every reachable state and after any sequence of calls on any `envs`,
all of which return; and `n ≥ 1` calls on the same `env` leave both tables as
one call leaves them. -/
theorem helios_init_flag_never_set (env : JNIEnv) (envs : List JNIEnv) (n : Nat) (w : World)
    (hw : Reachable w) (hn : 1 ≤ n) :
    (∀ (env0 : JNIEnv) (w0 : World), (helios_init env0 w0).world.initialized = w0.initialized) ∧
    w.initialized = false ∧
    (∃ ws, helios_init_each envs w = .returned ws ∧ ws.initialized = false) ∧
    (∃ w1 wn, helios_init env w = .returned w1 ∧ helios_init_times env n w = .returned wn ∧
      wn.JDirectMemoryBinding = w1.JDirectMemoryBinding ∧
      wn.JRemoteProcess = w1.JRemoteProcess) := by
  have h := reachable_flag w hw
  refine ⟨helios_init_flag, h, helios_init_each_flag envs w h, ?_⟩
  obtain ⟨m, rfl⟩ : ∃ m, n = m + 1 := ⟨n - 1, by omega⟩
  exact helios_init_times_tables env m w h

theorem helios_init_flag_never_set_witness :
    Reachable exampleAttached ∧ 1 ≤ 3 ∧
    (∀ (env0 : JNIEnv) (w0 : World), (helios_init env0 w0).world.initialized = w0.initialized) ∧
    exampleAttached.initialized = false ∧
    (∃ ws, helios_init_each [nullEnv, exampleEnv] exampleAttached = .returned ws ∧
      ws.initialized = false) ∧
    (∃ w1 wn, helios_init exampleEnv exampleAttached = .returned w1 ∧
      helios_init_times exampleEnv 3 exampleAttached = .returned wn ∧
      wn.JDirectMemoryBinding = w1.JDirectMemoryBinding ∧
      wn.JRemoteProcess = w1.JRemoteProcess) :=
  have hr : Reachable exampleAttached :=
    .attach exampleEnv kernelA 7 exampleInit _
      (.init exampleEnv (World.initial exampleHeap) _ (.start exampleHeap) rfl) rfl
  ⟨hr, by decide, helios_init_flag_never_set exampleEnv [nullEnv, exampleEnv] 3 exampleAttached hr
    (by decide)⟩

/-! ## `attach` -/

theorem jlong_of_HANDLE_bits (h : HANDLE) :
    jlong_of_HANDLE h % 2 ^ 64 = ((h % 2 ^ 64 : Nat) : Int) := by
  unfold jlong_of_HANDLE
  split <;> omega

theorem jlong_of_HANDLE_small (h : HANDLE) (hlt : h < 2 ^ 63) :
    jlong_of_HANDLE h = ((h : Nat) : Int) := by
  have hm : h % 2 ^ 64 = h :=
    Nat.mod_eq_of_lt (Nat.lt_of_lt_of_le hlt (by decide : 2 ^ 63 ≤ 2 ^ 64))
  unfold jlong_of_HANDLE
  rw [hm, if_pos hlt]

theorem DWORD_of_jlong_eq (p : jlong) : (DWORD_of_jlong p : Int) = p % 2 ^ 32 := by
  unfold DWORD_of_jlong
  omega

theorem DWORD_of_jlong_congr (p q : jlong) (h : p % 2 ^ 32 = q % 2 ^ 32) :
    DWORD_of_jlong p = DWORD_of_jlong q := by
  unfold DWORD_of_jlong
  rw [h]

theorem DWORD_of_jlong_wrap (p : jlong) : DWORD_of_jlong (p + 2 ^ 32) = DWORD_of_jlong p :=
  DWORD_of_jlong_congr _ _ Int.add_emod_self

theorem DWORD_of_jlong_small (p : jlong) (h0 : 0 ≤ p) (h1 : p < 2 ^ 32) :
    DWORD_of_jlong p = p.toNat := by
  show (p % 2 ^ 32).toNat = p.toNat
  rw [Int.emod_eq_of_lt h0 h1]

/-- The pid read by `attach` does not change when a field other than `handle`
is written. -/
theorem pidOf_SetLongField (env : JNIEnv) (w w1 : World) (this : jobject) (value : jlong)
    (hh : w.JRemoteProcess.process_handle ≠ w.JRemoteProcess.process)
    (ht : w1.JRemoteProcess = w.JRemoteProcess)
    (hheap : w1.heap = SetLongField w.heap this w.JRemoteProcess.process value) :
    pidOf env w1 this = pidOf env w this := by
  simp [pidOf, GetObjectField, SetLongField, hh, ht, hheap]

theorem SetLongField_twice (heap : Heap) (obj : jobject) (fieldID : jfieldID) (value : jlong) :
    SetLongField (SetLongField heap obj fieldID value) obj fieldID value
      = SetLongField heap obj fieldID value := by
  funext o f
  simp only [SetLongField]
  split <;> rfl

/-- Two handles give the same `jlong` exactly when they have the same 64 bits. -/
theorem jlong_of_HANDLE_inj (a b : HANDLE) :
    jlong_of_HANDLE a = jlong_of_HANDLE b ↔ a % 2 ^ 64 = b % 2 ^ 64 := by
  constructor
  · intro h
    have ha := jlong_of_HANDLE_bits a
    have hb := jlong_of_HANDLE_bits b
    rw [h, hb] at ha
    exact (Int.ofNat_inj.mp ha).symm
  · intro h
    unfold jlong_of_HANDLE
    rw [h]

/-- C2: attaching object 7 twice in succession opens process 4242 twice, and
the second handle, not the first, is left in the `process` field. -/
theorem attach_twice_not_idempotent :
    exampleAttached.heap 7 exampleInit.JRemoteProcess.process = .j 0x1A4 ∧
    exampleAttachedAgain.heap 7 exampleInit.JRemoteProcess.process = .j 0x1A8 ∧
    exampleAttachedAgain.heap 7 exampleInit.JRemoteProcess.process
      ≠ exampleAttached.heap 7 exampleInit.JRemoteProcess.process ∧
    openProcessCalls (callsSince exampleInit exampleAttachedAgain)
      = [(PROCESS_ALL_ACCESS, TRUE, 4242), (PROCESS_ALL_ACCESS, TRUE, 4242)] ∧
    (openProcessCalls (callsSince exampleInit exampleAttachedAgain)).length ≠ 1 := by
  decide

/-- C2, amended: two successive calls of `attach` on one receiver, whose
`handle` field is a field other than `process`, both return and issue exactly
two `OpenProcess` calls, each with `PROCESS_ALL_ACCESS`, `TRUE` and the low 32
bits of the pid; after each call the `process` field holds the handle that
call obtained, cast to `jlong`, which has the 64 bits of the handle; the field
keeps the value the first call left exactly when the second handle has the
same 64 bits as the first, and then the whole heap is as the first call left
it. -/
theorem attach_twice_opens_twice (env : JNIEnv) (os1 os2 : Win32) (this : jobject) (w : World)
    (hh : w.JRemoteProcess.process_handle ≠ w.JRemoteProcess.process) :
    ∃ w1 w2,
      Java_io_github_dotstart_helios_game_RemoteGameProcess_attach env os1 this w
        = .returned w1 ∧
      Java_io_github_dotstart_helios_game_RemoteGameProcess_attach env os2 this w1
        = .returned w2 ∧
      openProcessCalls (callsSince w w2)
        = [(PROCESS_ALL_ACCESS, TRUE, DWORD_of_jlong (pidOf env w this)),
           (PROCESS_ALL_ACCESS, TRUE, DWORD_of_jlong (pidOf env w this))] ∧
      w1.heap this w.JRemoteProcess.process = .j (jlong_of_HANDLE
        (os1.OpenProcess PROCESS_ALL_ACCESS TRUE (DWORD_of_jlong (pidOf env w this)))) ∧
      w2.heap this w.JRemoteProcess.process = .j (jlong_of_HANDLE
        (os2.OpenProcess PROCESS_ALL_ACCESS TRUE (DWORD_of_jlong (pidOf env w this)))) ∧
      jlong_of_HANDLE (os1.OpenProcess PROCESS_ALL_ACCESS TRUE (DWORD_of_jlong (pidOf env w this))) % 2 ^ 64
        = (((os1.OpenProcess PROCESS_ALL_ACCESS TRUE (DWORD_of_jlong (pidOf env w this))) % 2 ^ 64 : Nat) : Int) ∧
      jlong_of_HANDLE (os2.OpenProcess PROCESS_ALL_ACCESS TRUE (DWORD_of_jlong (pidOf env w this))) % 2 ^ 64
        = (((os2.OpenProcess PROCESS_ALL_ACCESS TRUE (DWORD_of_jlong (pidOf env w this))) % 2 ^ 64 : Nat) : Int) ∧
      (w2.heap this w.JRemoteProcess.process = w1.heap this w.JRemoteProcess.process ↔
        (os2.OpenProcess PROCESS_ALL_ACCESS TRUE (DWORD_of_jlong (pidOf env w this))) % 2 ^ 64
          = (os1.OpenProcess PROCESS_ALL_ACCESS TRUE (DWORD_of_jlong (pidOf env w this))) % 2 ^ 64) ∧
      ((os2.OpenProcess PROCESS_ALL_ACCESS TRUE (DWORD_of_jlong (pidOf env w this))) % 2 ^ 64
          = (os1.OpenProcess PROCESS_ALL_ACCESS TRUE (DWORD_of_jlong (pidOf env w this))) % 2 ^ 64 →
        w2.heap = w1.heap) := by
  obtain ⟨w1, e1, -, -, t1, hp1, tr1⟩ := attach_spec env os1 this w
  obtain ⟨w2, e2, -, -, -, hp2, tr2⟩ := attach_spec env os2 this w1
  have hp : pidOf env w1 this = pidOf env w this := pidOf_SetLongField env w w1 this _ hh t1 hp1
  rw [hp, t1] at hp2
  refine ⟨w1, w2, e1, e2, ?_, ?_, ?_, jlong_of_HANDLE_bits _, jlong_of_HANDLE_bits _, ?_, ?_⟩
  · rw [callsSince_append w w2 (attachCalls env os1 this w ++ attachCalls env os2 this w1)
      (by rw [tr2, tr1, List.append_assoc])]
    simp [openProcessCalls, attachCalls, hp]
  · rw [hp1, SetLongField_same]
  · rw [hp2, SetLongField_same]
  · rw [hp2, hp1, SetLongField_same, SetLongField_same]
    constructor
    · intro hv
      exact (jlong_of_HANDLE_inj _ _).mp (jvalue.j.inj hv)
    · intro hv
      rw [(jlong_of_HANDLE_inj _ _).mpr hv]
  · intro he
    rw [hp2, hp1, (jlong_of_HANDLE_inj _ _).mpr he]
    exact SetLongField_twice _ _ _ _

theorem attach_twice_opens_twice_witness :
    exampleInit.JRemoteProcess.process_handle ≠ exampleInit.JRemoteProcess.process ∧
    kernelB.OpenProcess PROCESS_ALL_ACCESS TRUE (DWORD_of_jlong (pidOf exampleEnv exampleInit 7))
        % 2 ^ 64
      ≠ kernelA.OpenProcess PROCESS_ALL_ACCESS TRUE
          (DWORD_of_jlong (pidOf exampleEnv exampleInit 7)) % 2 ^ 64 ∧
    (∃ w1 w2,
        Java_io_github_dotstart_helios_game_RemoteGameProcess_attach exampleEnv kernelA 7 exampleInit
          = .returned w1 ∧
        Java_io_github_dotstart_helios_game_RemoteGameProcess_attach exampleEnv kernelB 7 w1
          = .returned w2 ∧
        openProcessCalls (callsSince exampleInit w2)
          = [(PROCESS_ALL_ACCESS, TRUE, DWORD_of_jlong (pidOf exampleEnv exampleInit 7)),
             (PROCESS_ALL_ACCESS, TRUE, DWORD_of_jlong (pidOf exampleEnv exampleInit 7))] ∧
        w1.heap 7 exampleInit.JRemoteProcess.process = .j (jlong_of_HANDLE
          (kernelA.OpenProcess PROCESS_ALL_ACCESS TRUE (DWORD_of_jlong (pidOf exampleEnv exampleInit 7)))) ∧
        w2.heap 7 exampleInit.JRemoteProcess.process = .j (jlong_of_HANDLE
          (kernelB.OpenProcess PROCESS_ALL_ACCESS TRUE (DWORD_of_jlong (pidOf exampleEnv exampleInit 7)))) ∧
        jlong_of_HANDLE (kernelA.OpenProcess PROCESS_ALL_ACCESS TRUE (DWORD_of_jlong (pidOf exampleEnv exampleInit 7))) % 2 ^ 64
          = (((kernelA.OpenProcess PROCESS_ALL_ACCESS TRUE (DWORD_of_jlong (pidOf exampleEnv exampleInit 7))) % 2 ^ 64 : Nat) : Int) ∧
        jlong_of_HANDLE (kernelB.OpenProcess PROCESS_ALL_ACCESS TRUE (DWORD_of_jlong (pidOf exampleEnv exampleInit 7))) % 2 ^ 64
          = (((kernelB.OpenProcess PROCESS_ALL_ACCESS TRUE (DWORD_of_jlong (pidOf exampleEnv exampleInit 7))) % 2 ^ 64 : Nat) : Int) ∧
        (w2.heap 7 exampleInit.JRemoteProcess.process = w1.heap 7 exampleInit.JRemoteProcess.process ↔
          (kernelB.OpenProcess PROCESS_ALL_ACCESS TRUE (DWORD_of_jlong (pidOf exampleEnv exampleInit 7))) % 2 ^ 64
            = (kernelA.OpenProcess PROCESS_ALL_ACCESS TRUE (DWORD_of_jlong (pidOf exampleEnv exampleInit 7))) % 2 ^ 64) ∧
        ((kernelB.OpenProcess PROCESS_ALL_ACCESS TRUE (DWORD_of_jlong (pidOf exampleEnv exampleInit 7))) % 2 ^ 64
            = (kernelA.OpenProcess PROCESS_ALL_ACCESS TRUE (DWORD_of_jlong (pidOf exampleEnv exampleInit 7))) % 2 ^ 64 →
          w2.heap = w1.heap)) ∧
    (∃ w1 w2,
        Java_io_github_dotstart_helios_game_RemoteGameProcess_attach exampleEnv kernelA 7 exampleInit
          = .returned w1 ∧
        Java_io_github_dotstart_helios_game_RemoteGameProcess_attach exampleEnv kernelA 7 w1
          = .returned w2 ∧
        openProcessCalls (callsSince exampleInit w2)
          = [(PROCESS_ALL_ACCESS, TRUE, DWORD_of_jlong (pidOf exampleEnv exampleInit 7)),
             (PROCESS_ALL_ACCESS, TRUE, DWORD_of_jlong (pidOf exampleEnv exampleInit 7))] ∧
        w1.heap 7 exampleInit.JRemoteProcess.process = .j (jlong_of_HANDLE
          (kernelA.OpenProcess PROCESS_ALL_ACCESS TRUE (DWORD_of_jlong (pidOf exampleEnv exampleInit 7)))) ∧
        w2.heap 7 exampleInit.JRemoteProcess.process = .j (jlong_of_HANDLE
          (kernelA.OpenProcess PROCESS_ALL_ACCESS TRUE (DWORD_of_jlong (pidOf exampleEnv exampleInit 7)))) ∧
        jlong_of_HANDLE (kernelA.OpenProcess PROCESS_ALL_ACCESS TRUE (DWORD_of_jlong (pidOf exampleEnv exampleInit 7))) % 2 ^ 64
          = (((kernelA.OpenProcess PROCESS_ALL_ACCESS TRUE (DWORD_of_jlong (pidOf exampleEnv exampleInit 7))) % 2 ^ 64 : Nat) : Int) ∧
        jlong_of_HANDLE (kernelA.OpenProcess PROCESS_ALL_ACCESS TRUE (DWORD_of_jlong (pidOf exampleEnv exampleInit 7))) % 2 ^ 64
          = (((kernelA.OpenProcess PROCESS_ALL_ACCESS TRUE (DWORD_of_jlong (pidOf exampleEnv exampleInit 7))) % 2 ^ 64 : Nat) : Int) ∧
        (w2.heap 7 exampleInit.JRemoteProcess.process = w1.heap 7 exampleInit.JRemoteProcess.process ↔
          (kernelA.OpenProcess PROCESS_ALL_ACCESS TRUE (DWORD_of_jlong (pidOf exampleEnv exampleInit 7))) % 2 ^ 64
            = (kernelA.OpenProcess PROCESS_ALL_ACCESS TRUE (DWORD_of_jlong (pidOf exampleEnv exampleInit 7))) % 2 ^ 64) ∧
        ((kernelA.OpenProcess PROCESS_ALL_ACCESS TRUE (DWORD_of_jlong (pidOf exampleEnv exampleInit 7))) % 2 ^ 64
            = (kernelA.OpenProcess PROCESS_ALL_ACCESS TRUE (DWORD_of_jlong (pidOf exampleEnv exampleInit 7))) % 2 ^ 64 →
          w2.heap = w1.heap)) :=
  ⟨by decide, by decide,
    attach_twice_opens_twice exampleEnv kernelA kernelB 7 exampleInit (by decide),
    attach_twice_opens_twice exampleEnv kernelA kernelA 7 exampleInit (by decide)⟩

/-- C3: when the kernel opens no process, `attach` on object 7 returns as on
success, raises nothing, and leaves the null handle in the `process` field. -/
theorem attach_failed_open_not_reported :
    kernelNone.OpenProcess PROCESS_ALL_ACCESS TRUE (DWORD_of_jlong (pidOf exampleEnv exampleInit 7))
      = NULL ∧
    exampleFailedOpen.isReturned = true ∧
    signalsError (callsSince exampleInit exampleFailedOpen.world) = false ∧
    exampleFailedOpen.world.heap 7 exampleInit.JRemoteProcess.process = .j 0 := by
  decide

/-- C3, amended: when `OpenProcess` returns the null handle for the pid of
the receiver, `attach` reports nothing: it returns to its caller, none of its
calls raises an exception or aborts the VM, and the `process` field holds 0. -/
theorem attach_failed_open_stores_null (env : JNIEnv) (os : Win32) (this : jobject) (w : World)
    (h : os.OpenProcess PROCESS_ALL_ACCESS TRUE (DWORD_of_jlong (pidOf env w this)) = NULL) :
    ∃ w1,
      Java_io_github_dotstart_helios_game_RemoteGameProcess_attach env os this w = .returned w1 ∧
      signalsError (callsSince w w1) = false ∧
      w1.heap this w.JRemoteProcess.process = .j 0 := by
  refine ⟨_, attach_eq env os this w, ?_, ?_⟩
  · rw [callsSince_append w _ (attachCalls env os this w) rfl]
    rfl
  · simp only [h, SetLongField_same]
    rfl

theorem attach_failed_open_stores_null_witness :
    kernelNone.OpenProcess PROCESS_ALL_ACCESS TRUE (DWORD_of_jlong (pidOf exampleEnv exampleInit 7))
      = NULL ∧
    ∃ w1,
      Java_io_github_dotstart_helios_game_RemoteGameProcess_attach exampleEnv kernelNone 7
        exampleInit = .returned w1 ∧
      signalsError (callsSince exampleInit w1) = false ∧
      w1.heap 7 exampleInit.JRemoteProcess.process = .j 0 :=
  ⟨rfl, attach_failed_open_stores_null exampleEnv kernelNone 7 exampleInit rfl⟩

/-- C4: after `helios_init env`, `attach` on a receiver whose `handle` field
refers to a `ProcessHandle` reporting a pid `p` with `0 ≤ p < 2 ^ 32` returns
after exactly one `OpenProcess` call, with `PROCESS_ALL_ACCESS`, `TRUE` and
`p`; the `process` field then holds the handle that call returned, cast to
`jlong`, which has the 64 bits of the handle; and `PROCESS_ALL_ACCESS` contains
the rights to read memory, to write memory and to query the process. -/
theorem attach_passes_through (env : JNIEnv) (os : Win32) (this ph : jobject) (p : jlong)
    (w : World) (h0 : w.initialized = false)
    (hfield : w.heap this
      (env.GetFieldID (env.FindClass "io/github/dotstart/helios/game/RemoteGameProcess")
        "handle" "Ljava/lang/ProcessHandle;") = .l ph)
    (hpid : env.CallLongMethod ph
      (env.GetMethodID (env.FindClass "java/lang/ProcessHandle") "pid" "()J") = p)
    (hlo : 0 ≤ p) (hhi : p < 2 ^ 32) :
    ∃ w1 w2, helios_init env w = .returned w1 ∧
      Java_io_github_dotstart_helios_game_RemoteGameProcess_attach env os this w1 = .returned w2 ∧
      openProcessCalls (callsSince w1 w2) = [(PROCESS_ALL_ACCESS, TRUE, p.toNat)] ∧
      w2.heap this
          (env.GetFieldID (env.FindClass "io/github/dotstart/helios/game/RemoteGameProcess")
            "process" "J")
        = .j (jlong_of_HANDLE (os.OpenProcess PROCESS_ALL_ACCESS TRUE p.toNat)) ∧
      jlong_of_HANDLE (os.OpenProcess PROCESS_ALL_ACCESS TRUE p.toNat) % 2 ^ 64
        = ((os.OpenProcess PROCESS_ALL_ACCESS TRUE p.toNat % 2 ^ 64 : Nat) : Int) ∧
      PROCESS_ALL_ACCESS &&& PROCESS_VM_READ = PROCESS_VM_READ ∧
      PROCESS_ALL_ACCESS &&& PROCESS_VM_WRITE = PROCESS_VM_WRITE ∧
      PROCESS_ALL_ACCESS &&& PROCESS_QUERY_INFORMATION = PROCESS_QUERY_INFORMATION := by
  obtain ⟨w2, e2, -, -, -, hp2, tr2⟩ := attach_spec env os this (helios_init env w).world
  rw [helios_init_eq env w h0] at e2 hp2 tr2
  simp only [Result.world] at e2 hp2 tr2
  have hp : DWORD_of_jlong (pidOf env
      { initialized := false
        JDirectMemoryBinding :=
          { clazz := env.FindClass "io/github/dotstart/helios/game/DirectMemoryBinding"
            is_valid := env.GetFieldID
              (env.FindClass "io/github/dotstart/helios/game/DirectMemoryBinding") "isValid" "Z" }
        JRemoteProcess :=
          { clazz := env.FindClass "io/github/dotstart/helios/game/RemoteGameProcess"
            java_lang_ProcessHandle := env.FindClass "java/lang/ProcessHandle"
            java_lang_ProcessHandle_pid :=
              env.GetMethodID (env.FindClass "java/lang/ProcessHandle") "pid" "()J"
            process := env.GetFieldID
              (env.FindClass "io/github/dotstart/helios/game/RemoteGameProcess") "process" "J"
            direct_accessor := env.GetFieldID
              (env.FindClass "io/github/dotstart/helios/game/RemoteGameProcess") "directAccessor"
              "Lio/github/dotstart/helios/game/RemoteGameProcess/DirectMemoryAccessor;"
            process_handle := env.GetFieldID
              (env.FindClass "io/github/dotstart/helios/game/RemoteGameProcess") "handle"
              "Ljava/lang/ProcessHandle;" }
        heap := w.heap
        trace := w.trace ++ lookupCalls env } this) = p.toNat := by
    rw [← DWORD_of_jlong_small p hlo hhi]
    simp [pidOf, GetObjectField, hfield, hpid]
  rw [hp] at hp2
  refine ⟨_, w2, helios_init_eq env w h0, e2, ?_, ?_, jlong_of_HANDLE_bits _,
    by decide, by decide, by decide⟩
  · rw [callsSince_append _ w2 _ tr2]
    simp [openProcessCalls, attachCalls, hp]
  · rw [hp2, SetLongField_same]

theorem attach_passes_through_witness :
    (World.initial exampleHeap).initialized = false ∧
    (World.initial exampleHeap).heap 7
      (exampleEnv.GetFieldID
        (exampleEnv.FindClass "io/github/dotstart/helios/game/RemoteGameProcess")
        "handle" "Ljava/lang/ProcessHandle;") = .l 100 ∧
    exampleEnv.CallLongMethod 100
      (exampleEnv.GetMethodID (exampleEnv.FindClass "java/lang/ProcessHandle") "pid" "()J")
      = 4242 ∧
    (0 : jlong) ≤ 4242 ∧ (4242 : jlong) < 2 ^ 32 ∧
    ∃ w1 w2, helios_init exampleEnv (World.initial exampleHeap) = .returned w1 ∧
      Java_io_github_dotstart_helios_game_RemoteGameProcess_attach exampleEnv kernelA 7 w1
        = .returned w2 ∧
      openProcessCalls (callsSince w1 w2) = [(PROCESS_ALL_ACCESS, TRUE, (4242 : jlong).toNat)] ∧
      w2.heap 7
          (exampleEnv.GetFieldID
            (exampleEnv.FindClass "io/github/dotstart/helios/game/RemoteGameProcess")
            "process" "J")
        = .j (jlong_of_HANDLE
            (kernelA.OpenProcess PROCESS_ALL_ACCESS TRUE (4242 : jlong).toNat)) ∧
      jlong_of_HANDLE (kernelA.OpenProcess PROCESS_ALL_ACCESS TRUE (4242 : jlong).toNat) % 2 ^ 64
        = ((kernelA.OpenProcess PROCESS_ALL_ACCESS TRUE (4242 : jlong).toNat % 2 ^ 64 : Nat) : Int) ∧
      PROCESS_ALL_ACCESS &&& PROCESS_VM_READ = PROCESS_VM_READ ∧
      PROCESS_ALL_ACCESS &&& PROCESS_VM_WRITE = PROCESS_VM_WRITE ∧
      PROCESS_ALL_ACCESS &&& PROCESS_QUERY_INFORMATION = PROCESS_QUERY_INFORMATION :=
  ⟨rfl, by decide, by decide, by decide, by decide,
    attach_passes_through exampleEnv kernelA 7 100 4242 (World.initial exampleHeap) rfl
      (by decide) (by decide) (by decide) (by decide)⟩

/-- C7: no failure other than double initialization is handled.  With the flag
clear `helios_init` returns after exactly its eight lookups, none of them
`FatalError`, whatever they answer: each answer, null included, is stored and
handed on as the class of the lookups that follow.  And `attach`, for every
receiver, pid and kernel answer, null included, returns after its four calls,
none of which aborts the VM or raises, with the answer of `OpenProcess` stored
in the `process` field: the field holds that handle cast to `jlong`, which has
the 64 bits of the handle, and equals the handle itself when that is below
`2 ^ 63`. -/
theorem failures_unhandled (env : JNIEnv) (os : Win32) (this : jobject) (w : World) :
    (w.initialized = false →
      ∃ w1, helios_init env w = .returned w1 ∧
        callsSince w w1 = lookupCalls env ∧
        (callsSince w w1).any Event.isFatalError = false ∧
        ((callsSince w w1).filter Event.isLookup).length = 8 ∧
        w1.JDirectMemoryBinding =
          { clazz := env.FindClass "io/github/dotstart/helios/game/DirectMemoryBinding"
            is_valid := env.GetFieldID
              (env.FindClass "io/github/dotstart/helios/game/DirectMemoryBinding") "isValid" "Z" } ∧
        w1.JRemoteProcess =
          { clazz := env.FindClass "io/github/dotstart/helios/game/RemoteGameProcess"
            java_lang_ProcessHandle := env.FindClass "java/lang/ProcessHandle"
            java_lang_ProcessHandle_pid :=
              env.GetMethodID (env.FindClass "java/lang/ProcessHandle") "pid" "()J"
            process := env.GetFieldID
              (env.FindClass "io/github/dotstart/helios/game/RemoteGameProcess") "process" "J"
            direct_accessor := env.GetFieldID
              (env.FindClass "io/github/dotstart/helios/game/RemoteGameProcess") "directAccessor"
              "Lio/github/dotstart/helios/game/RemoteGameProcess/DirectMemoryAccessor;"
            process_handle := env.GetFieldID
              (env.FindClass "io/github/dotstart/helios/game/RemoteGameProcess") "handle"
              "Ljava/lang/ProcessHandle;" }) ∧
    (∃ w2,
      Java_io_github_dotstart_helios_game_RemoteGameProcess_attach env os this w = .returned w2 ∧
      callsSince w w2 = attachCalls env os this w ∧
      signalsError (callsSince w w2) = false ∧
      w2.heap this w.JRemoteProcess.process = .j (jlong_of_HANDLE
        (os.OpenProcess PROCESS_ALL_ACCESS TRUE (DWORD_of_jlong (pidOf env w this)))) ∧
      jlong_of_HANDLE
          (os.OpenProcess PROCESS_ALL_ACCESS TRUE (DWORD_of_jlong (pidOf env w this))) % 2 ^ 64
        = ((os.OpenProcess PROCESS_ALL_ACCESS TRUE (DWORD_of_jlong (pidOf env w this)) % 2 ^ 64
            : Nat) : Int) ∧
      (os.OpenProcess PROCESS_ALL_ACCESS TRUE (DWORD_of_jlong (pidOf env w this)) < 2 ^ 63 →
        w2.heap this w.JRemoteProcess.process = .j
          ((os.OpenProcess PROCESS_ALL_ACCESS TRUE (DWORD_of_jlong (pidOf env w this)) : Nat)
            : Int))) := by
  constructor
  · intro h
    refine ⟨_, helios_init_eq env w h, ?_, ?_, ?_, rfl, rfl⟩
    · exact callsSince_append _ _ _ rfl
    · rw [callsSince_append w _ (lookupCalls env) rfl]
      rfl
    · rw [callsSince_append w _ (lookupCalls env) rfl]
      rfl
  · obtain ⟨w2, e2, -, -, -, hp2, tr2⟩ := attach_spec env os this w
    refine ⟨w2, e2, callsSince_append w w2 _ tr2, ?_, ?_, jlong_of_HANDLE_bits _, ?_⟩
    · rw [callsSince_append w w2 _ tr2]
      rfl
    · rw [hp2, SetLongField_same]
    · intro hlt
      rw [hp2, SetLongField_same, jlong_of_HANDLE_small _ hlt]

theorem failures_unhandled_witness :
    (World.initial exampleHeap).initialized = false ∧
    exampleInit.initialized = false ∧
    kernelA.OpenProcess PROCESS_ALL_ACCESS TRUE (DWORD_of_jlong (pidOf exampleEnv exampleInit 7))
      = 0x1A4 ∧
    (∃ w1, helios_init nullEnv (World.initial exampleHeap) = .returned w1 ∧
      w1.JDirectMemoryBinding = ⟨NULL, NULL⟩ ∧
      w1.JRemoteProcess = ⟨NULL, NULL, NULL, NULL, NULL, NULL⟩ ∧
      callsSince (World.initial exampleHeap) w1 = lookupCalls nullEnv) ∧
    (∃ w1, helios_init exampleEnv exampleInit = .returned w1 ∧
      w1.JDirectMemoryBinding = ⟨1, 11⟩ ∧
      w1.JRemoteProcess = ⟨2, 3, 31, 21, 22, 23⟩ ∧
      callsSince exampleInit w1 = lookupCalls exampleEnv) ∧
    (∃ w2,
      Java_io_github_dotstart_helios_game_RemoteGameProcess_attach exampleEnv kernelA 7
        exampleInit = .returned w2 ∧
      callsSince exampleInit w2 =
        [.GetObjectField 7 23, .CallLongMethod 100 31,
         .OpenProcess PROCESS_ALL_ACCESS TRUE 4242, .SetLongField 7 21 0x1A4] ∧
      signalsError (callsSince exampleInit w2) = false ∧
      w2.heap 7 21 = .j 0x1A4) ∧
    (∃ w2,
      Java_io_github_dotstart_helios_game_RemoteGameProcess_attach exampleEnv kernelNone 7
        exampleInit = .returned w2 ∧
      signalsError (callsSince exampleInit w2) = false ∧
      w2.heap 7 21 = .j 0) :=
  have h0 := failures_unhandled nullEnv kernelNone 7 (World.initial exampleHeap)
  have hA := failures_unhandled exampleEnv kernelA 7 exampleInit
  have hN := failures_unhandled exampleEnv kernelNone 7 exampleInit
  ⟨rfl, by decide, by decide,
    (h0.1 rfl).elim fun w1 h1 => ⟨w1, h1.1, h1.2.2.2.2.1, h1.2.2.2.2.2, h1.2.1⟩,
    (hA.1 (by decide)).elim fun w1 h1 => ⟨w1, h1.1, h1.2.2.2.2.1, h1.2.2.2.2.2, h1.2.1⟩,
    hA.2.elim fun w2 h2 => ⟨w2, h2.1, h2.2.1, h2.2.2.1, h2.2.2.2.2.2 (by decide)⟩,
    hN.2.elim fun w2 h2 => ⟨w2, h2.1, h2.2.2.1, h2.2.2.2.2.2 (by decide)⟩⟩

/-- C9: `attach` passes the low 32 bits of the pid to `OpenProcess`, its only
kernel call, and rejects no pid.  Two pids with the same low 32 bits, such as
`p` and `p + 2 ^ 32`, give the same run: the same calls and the same state
returned, against the same kernel. -/
theorem attach_truncates_pid (env1 env2 : JNIEnv) (os : Win32) (this : jobject) (w : World)
    (h : pidOf env1 w this % 2 ^ 32 = pidOf env2 w this % 2 ^ 32) :
    (∃ w1,
      Java_io_github_dotstart_helios_game_RemoteGameProcess_attach env1 os this w = .returned w1 ∧
      openProcessCalls (callsSince w w1)
        = [(PROCESS_ALL_ACCESS, TRUE, (pidOf env1 w this % 2 ^ 32).toNat)] ∧
      signalsError (callsSince w w1) = false ∧
      w1.heap this w.JRemoteProcess.process = .j (jlong_of_HANDLE
        (os.OpenProcess PROCESS_ALL_ACCESS TRUE (pidOf env1 w this % 2 ^ 32).toNat))) ∧
    ((pidOf env1 w this % 2 ^ 32).toNat : Int) = pidOf env1 w this % 2 ^ 32 ∧
    (pidOf env1 w this % 2 ^ 32).toNat < 2 ^ 32 ∧
    DWORD_of_jlong (pidOf env1 w this + 2 ^ 32) = DWORD_of_jlong (pidOf env1 w this) ∧
    Java_io_github_dotstart_helios_game_RemoteGameProcess_attach env1 os this w
      = Java_io_github_dotstart_helios_game_RemoteGameProcess_attach env2 os this w := by
  refine ⟨?_, ?_, ?_, DWORD_of_jlong_wrap _, ?_⟩
  · obtain ⟨w1, e1, -, -, -, hp1, tr1⟩ := attach_spec env1 os this w
    refine ⟨w1, e1, ?_, ?_, ?_⟩
    · rw [callsSince_append w w1 _ tr1]
      simp [openProcessCalls, attachCalls, DWORD_of_jlong]
    · rw [callsSince_append w w1 _ tr1]
      rfl
    · rw [hp1, SetLongField_same]
      rfl
  · exact DWORD_of_jlong_eq _
  · have := DWORD_of_jlong_eq (pidOf env1 w this)
    unfold DWORD_of_jlong at this
    omega
  · have hd := DWORD_of_jlong_congr _ _ h
    rw [attach_eq, attach_eq]
    simp only [attachCalls, hd]

theorem attach_truncates_pid_witness :
    pidOf exampleEnv exampleInit 7 % 2 ^ 32 = pidOf exampleEnvHigh exampleInit 7 % 2 ^ 32 ∧
    pidOf exampleEnv exampleInit 7 = 4242 ∧
    pidOf exampleEnvHigh exampleInit 7 = 4242 + 2 ^ 32 ∧
    Java_io_github_dotstart_helios_game_RemoteGameProcess_attach exampleEnv kernelA 7 exampleInit
      = Java_io_github_dotstart_helios_game_RemoteGameProcess_attach exampleEnvHigh kernelA 7
          exampleInit :=
  ⟨by decide, by decide, by decide,
    (attach_truncates_pid exampleEnv exampleEnvHigh kernelA 7 exampleInit (by decide)).2.2.2.2⟩

/-- C10: `attach` writes one field of one object, the field of the receiver
named by `JRemoteProcess.process`.  Every field of every other object and
every other field of the receiver keep their content, among them the
receiver's `handle` and `directAccessor` fields, these being fields other
than `process`; the flag and both tables are unchanged; and the value written
is decided by the pid and the kernel alone, so that a second receiver
reporting the same pid gets the same value in its `process` field. -/
theorem attach_writes_process_only (env : JNIEnv) (os : Win32) (this this2 : jobject)
    (w w2 : World)
    (hh : w.JRemoteProcess.process_handle ≠ w.JRemoteProcess.process)
    (hd : w.JRemoteProcess.direct_accessor ≠ w.JRemoteProcess.process)
    (hp : pidOf env w2 this2 = pidOf env w this) :
    ∃ w1 w3,
      Java_io_github_dotstart_helios_game_RemoteGameProcess_attach env os this w = .returned w1 ∧
      Java_io_github_dotstart_helios_game_RemoteGameProcess_attach env os this2 w2 = .returned w3 ∧
      (∀ o f, ¬ (o = this ∧ f = w.JRemoteProcess.process) → w1.heap o f = w.heap o f) ∧
      w1.heap this w.JRemoteProcess.process_handle = w.heap this w.JRemoteProcess.process_handle ∧
      w1.heap this w.JRemoteProcess.direct_accessor
        = w.heap this w.JRemoteProcess.direct_accessor ∧
      w1.initialized = w.initialized ∧
      w1.JDirectMemoryBinding = w.JDirectMemoryBinding ∧
      w1.JRemoteProcess = w.JRemoteProcess ∧
      w3.heap this2 w2.JRemoteProcess.process = w1.heap this w.JRemoteProcess.process := by
  obtain ⟨w1, e1, i1, b1, t1, hp1, -⟩ := attach_spec env os this w
  obtain ⟨w3, e3, -, -, -, hp3, -⟩ := attach_spec env os this2 w2
  refine ⟨w1, w3, e1, e3, ?_, ?_, ?_, i1, b1, t1, ?_⟩
  · intro o f hne
    rw [hp1]
    exact SetLongField_other _ _ _ _ _ _ hne
  · rw [hp1]
    exact SetLongField_other _ _ _ _ _ _ (fun hc => hh hc.2)
  · rw [hp1]
    exact SetLongField_other _ _ _ _ _ _ (fun hc => hd hc.2)
  · rw [hp1, hp3, SetLongField_same, SetLongField_same, hp]

theorem attach_writes_process_only_witness :
    exampleInit.JRemoteProcess.process_handle ≠ exampleInit.JRemoteProcess.process ∧
    exampleInit.JRemoteProcess.direct_accessor ≠ exampleInit.JRemoteProcess.process ∧
    pidOf exampleEnv exampleInit 8 = pidOf exampleEnv exampleInit 7 ∧
    exampleInit.heap 8 exampleInit.JRemoteProcess.process
      ≠ exampleInit.heap 7 exampleInit.JRemoteProcess.process ∧
    ∃ w1 w3,
      Java_io_github_dotstart_helios_game_RemoteGameProcess_attach exampleEnv kernelA 7 exampleInit
        = .returned w1 ∧
      Java_io_github_dotstart_helios_game_RemoteGameProcess_attach exampleEnv kernelA 8 exampleInit
        = .returned w3 ∧
      (∀ o f, ¬ (o = 7 ∧ f = exampleInit.JRemoteProcess.process) →
        w1.heap o f = exampleInit.heap o f) ∧
      w1.heap 7 exampleInit.JRemoteProcess.process_handle
        = exampleInit.heap 7 exampleInit.JRemoteProcess.process_handle ∧
      w1.heap 7 exampleInit.JRemoteProcess.direct_accessor
        = exampleInit.heap 7 exampleInit.JRemoteProcess.direct_accessor ∧
      w1.initialized = exampleInit.initialized ∧
      w1.JDirectMemoryBinding = exampleInit.JDirectMemoryBinding ∧
      w1.JRemoteProcess = exampleInit.JRemoteProcess ∧
      w3.heap 8 exampleInit.JRemoteProcess.process = w1.heap 7 exampleInit.JRemoteProcess.process :=
  ⟨by decide, by decide, by decide, by decide,
    attach_writes_process_only exampleEnv kernelA 7 8 exampleInit exampleInit
      (by decide) (by decide) (by decide)⟩

end Helios
